import Mathlib

/-!
Verification development for the festim species/subdomain excerpt
(`festim/species.py`, `festim/subdomain/surface_subdomain.py`).

The Python code is shallowly embedded: mutation of `self` becomes explicit
state passing (an operation that mutates an object returns the updated
object), Python exceptions become `Except PyError`, and the duck-typed
value specification `n` (number | fenics object | callable) becomes the
inductive `NSpec`.  External solver/mesh objects (ufl expressions,
`fem.Constant`, `fem.Function`, meshes) are represented by small inductive
types carrying exactly the data this excerpt reads.
-/

namespace Festim

/-- Python exceptions raised (directly or by builtins) in this excerpt,
tagged by their Python class. -/
inductive PyError where
  | valueError : String → PyError
  | typeError : String → PyError
  | attributeError : String → PyError
  | indexError : String → PyError
  deriving DecidableEq

/-- Symbolic ufl-style expressions: enough structure for the spatial
coordinate `ufl.SpatialCoordinate(mesh)`, solver fields (`fem.Function`,
identified by an id), scalar constants, and the sums/differences built by
`ImplicitSpecies.concentration`. -/
inductive UflExpr where
  | constant : ℚ → UflExpr
  | spatialCoord : UflExpr
  | function : Nat → UflExpr
  | add : UflExpr → UflExpr → UflExpr
  | sub : UflExpr → UflExpr → UflExpr
  deriving DecidableEq

/-- Evaluation of a symbolic expression at a point: `env` gives the value
of each solver field there, `xval` the spatial coordinate. -/
def UflExpr.eval (env : Nat → ℚ) (xval : ℚ) : UflExpr → ℚ
  | .constant q => q
  | .spatialCoord => xval
  | .function i => env i
  | .add a b => a.eval env xval + b.eval env xval
  | .sub a b => a.eval env xval - b.eval env xval

/-- Python values flowing through `create_value_fenics` and
`concentration`: numbers, solver objects, and a non-number example value
(a list), as returned by user callables. -/
inductive PyValue where
  | int : Int → PyValue
  | float : ℚ → PyValue
  | femConstant : ℚ → PyValue
  | femFunction : Nat → PyValue
  | expr : UflExpr → PyValue
  | pyList : List ℚ → PyValue
  | pyNone : PyValue
  deriving DecidableEq

/-- Embedding of `isinstance(v, (int, float))`: the numeric value when `v` is a Python
number, `none` otherwise. -/
def toNum : PyValue → Option ℚ
  | .int i => Option.some (i : ℚ)
  | .float q => Option.some q
  | _ => Option.none

/-- The text `type(v)` contributes to the error message of
`create_value_fenics` (exact rendering of the Python call to type() is not part of
any claim). -/
def typeName : PyValue → String
  | .int _ => "int"
  | .float _ => "float"
  | .femConstant _ => "Constant"
  | .femFunction _ => "Function"
  | .expr _ => "Expr"
  | .pyList _ => "list"
  | .pyNone => "NoneType"

/-- A Python callable as `create_value_fenics` sees it: its
`__code__.co_varnames` tuple (argument names, then local variable names)
and its behaviour as a function of the keyword arguments `t` and `x`
(`Option.none` meaning the keyword was not passed). -/
structure PyCallable where
  varnames : List String
  fn : Option PyValue → Option PyValue → PyValue

/-- The duck-typed value specification `ImplicitSpecies.n`: either a plain
Python value (number, fenics object, or anything else) or a callable. -/
inductive NSpec where
  | value : PyValue → NSpec
  | callable : PyCallable → NSpec

/-- Embedding of `festim.Species`: a named data holder whose solver-owned slots start
unset (`None`) and are bound later by the external solver. -/
structure Species where
  name : Option String := Option.none
  mobile : Bool := true
  solution : Option UflExpr := Option.none
  prev_solution : Option UflExpr := Option.none
  test_function : Option Unit := Option.none
  sub_function_space : Option Unit := Option.none
  post_processing_solution : Option UflExpr := Option.none
  collapsed_function_space : Option Unit := Option.none
  deriving DecidableEq

/-- Embedding of `Species.concentration`: returns the bound `solution` (possibly unset). -/
def Species.concentration (s : Species) : Option UflExpr := s.solution

/-- Embedding of `festim.ImplicitSpecies`: `others` keeps its Python default `None`
(`Option.none`), distinct from an actual (possibly empty) list; the
`value_fenics` attribute does not exist until `create_value_fenics` sets
it, modeled by `Option`. -/
structure ImplicitSpecies where
  name : Option String := Option.none
  n : NSpec
  others : Option (List Species) := Option.none
  value_fenics : Option PyValue := Option.none

/-- Embedding of `str(name)` as Python interpolates it into f-strings: `None` prints as
`"None"`. -/
def pyStr : Option String → String
  | Option.some s => s
  | Option.none => "None"

/-- The first entry of `others` whose `solution` is unset — the entry at
which the guard loop in `ImplicitSpecies.concentration` raises. -/
def firstUnsolved : List Species → Option Species
  | [] => Option.none
  | o :: rest => if o.solution = Option.none then Option.some o else firstUnsolved rest

/-- The message of the `ValueError` raised by `ImplicitSpecies.concentration`. -/
def concErrMsg (selfName otherName : Option String) : String :=
  "Cannot compute concentration of " ++ pyStr selfName ++ " because " ++ pyStr otherName ++ " has no solution"

/-- The solutions read by the comprehension
`[other.solution for other in self.others]`; the guard loop has already
ensured every `solution` is set, so no entry is dropped. -/
def solutionExprs (l : List Species) : List UflExpr :=
  l.filterMap (fun o => o.solution)

/-- Embedding of the Python builtin sum over a list of ufl expressions (start value `0`). -/
def pySum (l : List UflExpr) : UflExpr :=
  l.foldl UflExpr.add (UflExpr.constant 0)

/-- How the external ufl runtime coerces a Python value appearing in the
subtraction `value_fenics - sum(...)`; a list or `None` on the left of `-`
raises a `TypeError` (modelled by `Option.none`). -/
def toUfl : PyValue → Option UflExpr
  | .int i => Option.some (.constant (i : ℚ))
  | .float q => Option.some (.constant q)
  | .femConstant q => Option.some (.constant q)
  | .femFunction i => Option.some (.function i)
  | .expr e => Option.some e
  | .pyList _ => Option.none
  | .pyNone => Option.none

/-- Embedding of `ImplicitSpecies.concentration`: `len(self.others)` on the `None`
default raises `TypeError`; the guard loop raises `ValueError` at the
first dependency without a bound `solution`; otherwise the result is
`self.value_fenics - sum([other.solution for other in self.others])`
(reading an unset `value_fenics` raises `AttributeError`). -/
def ImplicitSpecies.concentration (s : ImplicitSpecies) : Except PyError UflExpr :=
  match s.others with
  | Option.none => .error (.typeError "object of type NoneType has no len()")
  | Option.some others =>
    match firstUnsolved others with
    | Option.some o => .error (.valueError (concErrMsg s.name o.name))
    | Option.none =>
      match s.value_fenics with
      | Option.none => .error (.attributeError "ImplicitSpecies object has no attribute value_fenics")
      | Option.some vf =>
        match toUfl vf with
        | Option.none => .error (.typeError ("unsupported operand type for -: " ++ typeName vf))
        | Option.some v => .ok (UflExpr.sub v (pySum (solutionExprs others)))

/-- Modelled from the spec: `F.as_fenics_constant` is repository code not
in this excerpt; section 6 specifies it as the external runtime constructor that wraps a
scalar as a constant field, so it wraps the number as a
`fem.Constant` holding that value. -/
def as_fenics_constant (v : ℚ) : PyValue := .femConstant v

/-- Embedding of `ImplicitSpecies.create_value_fenics(mesh, t)`, with the time constant
`t` carrying value `t : ℚ`.  A number is wrapped as a constant; a fenics
object (`fem.Function`, any ufl `Expr` — which includes `fem.Constant`) is
used as is; a callable is classified by its `co_varnames`: if it accepts
only `t` it is evaluated eagerly at `float(t)` and must return a number
(else `ValueError`; the source calls the callable a second time only to
format the message), otherwise it is called with exactly the accepted
subset of the keywords `t` (the time constant itself) and
`x = ufl.SpatialCoordinate(mesh)` and the result stored directly.  Any
other `n` (e.g. a list or `None`) matches no branch and leaves
`value_fenics` untouched. -/
def ImplicitSpecies.create_value_fenics (s : ImplicitSpecies) (t : ℚ) : Except PyError ImplicitSpecies :=
  match s.n with
  | .value v =>
    match v with
    | .int i => .ok { s with value_fenics := Option.some (as_fenics_constant (i : ℚ)) }
    | .float q => .ok { s with value_fenics := Option.some (as_fenics_constant q) }
    | .femConstant q => .ok { s with value_fenics := Option.some (.femConstant q) }
    | .femFunction i => .ok { s with value_fenics := Option.some (.femFunction i) }
    | .expr e => .ok { s with value_fenics := Option.some (.expr e) }
    | _ => .ok s
  | .callable c =>
    if "t" ∈ c.varnames ∧ "x" ∉ c.varnames ∧ "T" ∉ c.varnames then
      match toNum (c.fn (Option.some (.float t)) Option.none) with
      | Option.some q => .ok { s with value_fenics := Option.some (as_fenics_constant q) }
      | Option.none =>
        .error (.valueError ("self.value should return a float or an int, not " ++
          typeName (c.fn (Option.some (.float t)) Option.none) ++ " "))
    else
      let tkw := if "t" ∈ c.varnames then Option.some (PyValue.femConstant t) else Option.none
      let xkw := if "x" ∈ c.varnames then Option.some (PyValue.expr UflExpr.spatialCoord) else Option.none
      .ok { s with value_fenics := Option.some (c.fn tkw xkw) }

/-- Embedding of `ImplicitSpecies.update_density(t)`: only when `n` is callable,
`value_fenics` is a `fem.Constant`, and the string t is among the co_varnames
of the callable does it overwrite the value of the constant in place with
`n(t=t)`; the external runtime rejects assigning a non-scalar to a
value of a constant (modelled as a `ValueError`, never reached by the
properties of the spec). -/
def ImplicitSpecies.update_density (s : ImplicitSpecies) (t : ℚ) : Except PyError ImplicitSpecies :=
  match s.n with
  | .callable c =>
    match s.value_fenics with
    | Option.some (.femConstant _) =>
      if "t" ∈ c.varnames then
        match toNum (c.fn (Option.some (.float t)) Option.none) with
        | Option.some q => .ok { s with value_fenics := Option.some (.femConstant q) }
        | Option.none => .error (.valueError "could not assign non-scalar to Constant value")
      else .ok s
    | _ => .ok s
  | _ => .ok s

/-- Embedding of `find_species_from_name`: ordered linear scan; the first species whose
`name` equals the query (Python `spe.name == name`; an unset `None` name
never equals a string) is returned, else a `ValueError` naming the query. -/
def find_species_from_name (name : String) : List Species → Except PyError Species
  | [] => .error (.valueError ("Species " ++ name ++ " not found in list of species"))
  | spe :: rest =>
    if spe.name = Option.some name then .ok spe else find_species_from_name name rest

/-- Modelled from the spec: `F.VolumeSubdomain1D` is outside this excerpt;
the Trap only stores it and passes it to the Reaction, so an integer id
suffices. -/
structure VolumeSubdomain where
  id : Int
  deriving DecidableEq

/-- An entry of the `reactant` list of a Reaction: the Python list mixes
`Species` and `ImplicitSpecies` objects. -/
inductive ReactionSpecies where
  | species : Species → ReactionSpecies
  | implicit : ImplicitSpecies → ReactionSpecies

/-- Modelled from the spec: `F.Reaction` is external to this excerpt;
section 6 gives its constructor contract
`(reactant_list, product, k_0, E_k, p_0, E_p, volume)`, opaque to this
core, so it stores its arguments as given. -/
structure Reaction where
  reactant : List ReactionSpecies
  product : Species
  k_0 : ℚ
  E_k : ℚ
  p_0 : ℚ
  E_p : ℚ
  volume : VolumeSubdomain

/-- Embedding of `festim.Trap`: a `Species` (constructed via `super().__init__(name)`)
with kinetic parameters, a trap-site density spec `n`, a volume, and the
derived slots `trapped_concentration` / `reaction` initialised to `None`
(`empty_trap_sites` only exists after `create_species_and_reaction`). -/
structure Trap extends Species where
  mobile_species : Species
  k_0 : ℚ
  E_k : ℚ
  p_0 : ℚ
  E_p : ℚ
  n : NSpec
  volume : VolumeSubdomain
  trapped_concentration : Option Species := Option.none
  reaction : Option Reaction := Option.none
  empty_trap_sites : Option ImplicitSpecies := Option.none

/-- The Species `F.Species(name=self.name, mobile=False)` built by
`Trap.create_species_and_reaction` (all solver slots at their defaults). -/
def trapSpecies (tr : Trap) : Species :=
  { name := tr.name, mobile := false }

/-- The ImplicitSpecies
`F.ImplicitSpecies(n=self.n, others=[self.trapped_concentration])` built by
`Trap.create_species_and_reaction` (its `name` keeps the default `None`). -/
def trapSites (tr : Trap) : ImplicitSpecies :=
  { n := tr.n, others := Option.some [trapSpecies tr] }

/-- Embedding of `Trap.create_species_and_reaction`: Python mutates `self` and returns
`None`; the mutation is modelled by returning the updated Trap. -/
def Trap.create_species_and_reaction (tr : Trap) : Trap :=
  { tr with
    trapped_concentration := Option.some (trapSpecies tr)
    empty_trap_sites := Option.some (trapSites tr)
    reaction := Option.some
      { reactant := [ReactionSpecies.species tr.mobile_species, ReactionSpecies.implicit (trapSites tr)]
        product := trapSpecies tr
        k_0 := tr.k_0
        E_k := tr.E_k
        p_0 := tr.p_0
        E_p := tr.E_p
        volume := tr.volume } }

/-- Embedding of `festim.SurfaceSubdomain`: just an integer id. -/
structure SurfaceSubdomain where
  id : Int
  deriving DecidableEq

/-- Modelled from the spec: the external mesh/geometry service of
section 6; for each facet dimension it reports an ordered sequence of
boundary facet indices (here, the sequence returned for the accept-all
predicate `lambda x: np.full(x.shape[1], True)`). -/
structure Mesh where
  boundary_facets : Nat → List Nat

/-- Modelled from the spec: `dolfinx.mesh.locate_entities_boundary` with
the accept-all predicate returns the ordered index sequence the geometric
service reports for `(mesh, fdim)`. -/
def locate_entities_boundary (mesh : Mesh) (fdim : Nat) : List Nat :=
  mesh.boundary_facets fdim

/-- Embedding of `SurfaceSubdomain.locate_boundary_facet_indices`: computes the full
boundary index sequence, then `return indices[0]` — the first entry
(numpy raises `IndexError` when the sequence is empty). -/
def SurfaceSubdomain.locate_boundary_facet_indices (_s : SurfaceSubdomain) (mesh : Mesh) (fdim : Nat) : Except PyError Nat :=
  match locate_entities_boundary mesh fdim with
  | [] => .error (.indexError "index 0 is out of bounds for axis 0 with size 0")
  | i :: _ => .ok i

/-- Follows the wording of the spec (refinement reading of the claim on
`locate_boundary_facet_indices`): "returns every boundary facet index of
mesh at dimension fdim, in the order the geometric service reports them". -/
def locate_boundary_facet_indices_specWords (_s : SurfaceSubdomain) (mesh : Mesh) (fdim : Nat) : List Nat :=
  locate_entities_boundary mesh fdim

/-- The sequence of facet indices a call to the source function actually
returns: a single index on success, nothing on error. -/
def returnedIndices (r : Except PyError Nat) : List Nat :=
  match r with
  | .ok i => [i]
  | .error _ => []

/-- Embedding of `find_surface_from_id`: ordered linear scan; the first surface whose
`id` equals the query is returned, else a `ValueError` naming the query id. -/
def find_surface_from_id (id : Int) : List SurfaceSubdomain → Except PyError SurfaceSubdomain
  | [] => .error (.valueError ("id " ++ toString id ++ " not found in list of surfaces"))
  | surf :: rest =>
    if surf.id = id then .ok surf else find_surface_from_id id rest

/-- Helper predicate: whether a call raised a Python `TypeError`. -/
def raisedTypeError {α : Type} : Except PyError α → Bool
  | .error (.typeError _) => true
  | _ => false

/-! ### Concrete objects used by witnesses and counterexamples -/

/-- A mesh whose geometric service reports boundary facets `[5, 7]` at
every dimension. -/
def meshC1 : Mesh := ⟨fun _ => [5, 7]⟩

/-- A callable of `t` only that returns a list (a non-number). -/
def cListOfT : PyCallable := ⟨["t"], fun _ _ => PyValue.pyList [1]⟩

/-- An ImplicitSpecies whose `n` is the list-returning callable. -/
def sListOfT : ImplicitSpecies := { n := NSpec.callable cListOfT }

/-- A pure-time callable computing `2 * t`. -/
def fDouble : ℚ → ℚ := fun q => 2 * q

/-- The callable of `t` only whose value is `fDouble t` (as a Python float). -/
def cDouble : PyCallable :=
  ⟨["t"], fun targ _ =>
    match targ with
    | Option.some (PyValue.float q) => PyValue.float (fDouble q)
    | _ => PyValue.pyNone⟩

/-- An ImplicitSpecies whose `n` is the doubling callable. -/
def sDouble : ImplicitSpecies := { n := NSpec.callable cDouble }

/-- An ImplicitSpecies whose `n` is the Python int `7`. -/
def sIntSeven : ImplicitSpecies := { n := NSpec.value (PyValue.int 7) }

/-- A callable of `x` only returning the symbolic expression `x + 1`. -/
def cSpatial : PyCallable :=
  ⟨["x"], fun _ xarg =>
    match xarg with
    | Option.some (PyValue.expr e) => PyValue.expr (UflExpr.add e (UflExpr.constant 1))
    | _ => PyValue.pyNone⟩

/-- An ImplicitSpecies whose `n` is the spatial callable. -/
def sSpatial : ImplicitSpecies := { n := NSpec.callable cSpatial }

end Festim

namespace Festim

/-! ### Helper lemmas -/

theorem firstUnsolved_eq_some {l : List Species} {o : Species} (h : firstUnsolved l = Option.some o) : o ∈ l ∧ o.solution = Option.none := by
  induction l with
  | nil => simp [firstUnsolved] at h
  | cons a rest ih =>
    by_cases ha : a.solution = Option.none
    · simp [firstUnsolved, ha] at h
      subst h
      exact ⟨List.mem_cons_self a rest, ha⟩
    · simp [firstUnsolved, ha] at h
      obtain ⟨hmem, hsol⟩ := ih h
      exact ⟨List.mem_cons_of_mem a hmem, hsol⟩

theorem firstUnsolved_eq_none {l : List Species} : firstUnsolved l = Option.none ↔ ∀ o ∈ l, o.solution ≠ Option.none := by
  induction l with
  | nil => simp [firstUnsolved]
  | cons a rest ih =>
    by_cases ha : a.solution = Option.none
    · simp only [firstUnsolved, if_pos ha]
      constructor
      · intro h
        exact absurd h (by simp)
      · intro h
        exact absurd ha (h a (List.mem_cons_self a rest))
    · simp only [firstUnsolved, if_neg ha, ih, List.mem_cons]
      constructor
      · rintro h o (rfl | hmem)
        · exact ha
        · exact h o hmem
      · intro h o hmem
        exact h o (Or.inr hmem)

theorem foldl_add_eval (env : Nat → ℚ) (xval : ℚ) (l : List UflExpr) : ∀ a : UflExpr, (l.foldl UflExpr.add a).eval env xval = a.eval env xval + (l.map (fun e => e.eval env xval)).sum := by
  induction l with
  | nil => intro a; simp
  | cons e rest ih =>
    intro a
    simp only [List.foldl_cons, List.map_cons, List.sum_cons]
    rw [ih (UflExpr.add a e)]
    show a.eval env xval + e.eval env xval + _ = _
    ring

theorem pySum_eval (env : Nat → ℚ) (xval : ℚ) (l : List UflExpr) : (pySum l).eval env xval = (l.map (fun e => e.eval env xval)).sum := by
  unfold pySum
  rw [foldl_add_eval]
  show (0 : ℚ) + _ = _
  ring

/-! ### Claims -/

/-- C1 (counterexample): the claim says `locate_boundary_facet_indices`
with the default predicate returns the entire ordered sequence of boundary
facet indices.  On a mesh whose service reports `[5, 7]`, the source
function returns only the index `5`: the sequence of indices it returns is
not the sequence the geometric service reports. -/
theorem C1_counterexample : returnedIndices (SurfaceSubdomain.locate_boundary_facet_indices ⟨3⟩ meshC1 1) ≠ locate_boundary_facet_indices_specWords ⟨3⟩ meshC1 1 := by
  decide

/-- C1 (amended): `SurfaceSubdomain.locate_boundary_facet_indices` returns
only the first entry of the ordered sequence of boundary facet indices the
geometric service reports for `(mesh, fdim)` with the default (accept-all)
predicate (the full sequence is computed, but `indices[0]` is returned). -/
theorem C1_locate_returns_first_index (s : SurfaceSubdomain) (mesh : Mesh) (fdim : Nat) (i : Nat) (rest : List Nat) (h : locate_entities_boundary mesh fdim = i :: rest) : s.locate_boundary_facet_indices mesh fdim = .ok i := by
  unfold SurfaceSubdomain.locate_boundary_facet_indices
  rw [h]

/-- C1 (witness): on the mesh reporting `[5, 7]`, the call returns `5`. -/
theorem C1_locate_returns_first_index_witness : SurfaceSubdomain.locate_boundary_facet_indices ⟨3⟩ meshC1 1 = .ok 5 :=
  C1_locate_returns_first_index ⟨3⟩ meshC1 1 5 [7] rfl

/-- C2 (counterexample): the claim says a pure-time callable returning a
non-number makes `create_value_fenics` fail with a TypeError-class error.
On the callable returning a list, the source raises a `ValueError`; no
`TypeError` is raised. -/
theorem C2_counterexample : sListOfT.create_value_fenics 0 = .error (.valueError "self.value should return a float or an int, not list ") ∧ raisedTypeError (sListOfT.create_value_fenics 0) = false :=
  ⟨rfl, rfl⟩

/-- C2 (amended): for every callable `n` accepting only `t` (not `x`, not
`T`) and returning a non-number, `create_value_fenics` fails immediately
at bind time with a ValueError-class error (so `value_fenics` is never
set and the callable is not retried). -/
theorem C2_pure_time_nonnumber_raises (s : ImplicitSpecies) (c : PyCallable) (t : ℚ) (hn : s.n = NSpec.callable c) (ht : "t" ∈ c.varnames) (hx : "x" ∉ c.varnames) (hT : "T" ∉ c.varnames) (hret : toNum (c.fn (Option.some (PyValue.float t)) Option.none) = Option.none) : s.create_value_fenics t = .error (.valueError ("self.value should return a float or an int, not " ++ typeName (c.fn (Option.some (PyValue.float t)) Option.none) ++ " ")) := by
  simp only [ImplicitSpecies.create_value_fenics, hn]
  rw [if_pos ⟨ht, hx, hT⟩, hret]

/-- C2 (witness): the amended claim at the concrete list-returning
callable of `t` at time `0`. -/
theorem C2_pure_time_nonnumber_raises_witness : sListOfT.create_value_fenics 0 = .error (.valueError ("self.value should return a float or an int, not " ++ typeName (cListOfT.fn (Option.some (PyValue.float 0)) Option.none) ++ " ")) :=
  C2_pure_time_nonnumber_raises sListOfT cListOfT 0 rfl (by decide) (by decide) (by decide) rfl

/-- C3: for every callable `f` accepting only `t` and returning a number,
`create_value_fenics(mesh, t0)` binds `value_fenics` to a constant field
whose value is `f t0`, and `update_density t1` overwrites that value in
place with `f t1`. -/
theorem C3_pure_time_numeric_bind_then_update (s : ImplicitSpecies) (c : PyCallable) (f : ℚ → ℚ) (t0 t1 : ℚ) (hn : s.n = NSpec.callable c) (ht : "t" ∈ c.varnames) (hx : "x" ∉ c.varnames) (hT : "T" ∉ c.varnames) (hf : ∀ tv : ℚ, toNum (c.fn (Option.some (PyValue.float tv)) Option.none) = Option.some (f tv)) : s.create_value_fenics t0 = .ok { s with value_fenics := Option.some (PyValue.femConstant (f t0)) } ∧ ImplicitSpecies.update_density { s with value_fenics := Option.some (PyValue.femConstant (f t0)) } t1 = .ok { s with value_fenics := Option.some (PyValue.femConstant (f t1)) } := by
  constructor
  · simp only [ImplicitSpecies.create_value_fenics, hn]
    rw [if_pos ⟨ht, hx, hT⟩, hf t0]
    rfl
  · show ImplicitSpecies.update_density _ _ = _
    simp only [ImplicitSpecies.update_density, hn]
    rw [if_pos ht, hf t1]

/-- C3 (witness): the doubling callable of `t` bound at `t0 = 1` and
refreshed at `t1 = 4`. -/
theorem C3_pure_time_numeric_bind_then_update_witness : sDouble.create_value_fenics 1 = .ok { sDouble with value_fenics := Option.some (PyValue.femConstant (fDouble 1)) } ∧ ImplicitSpecies.update_density { sDouble with value_fenics := Option.some (PyValue.femConstant (fDouble 1)) } 4 = .ok { sDouble with value_fenics := Option.some (PyValue.femConstant (fDouble 4)) } :=
  C3_pure_time_numeric_bind_then_update sDouble cDouble fDouble 1 4 rfl (by decide) (by decide) (by decide) (fun _ => rfl)

/-- C4: for every numeric `n` (Python int or float), `create_value_fenics`
binds `value_fenics` to a constant field equal to `n`, and a later
`update_density` (at any time) leaves the state unchanged. -/
theorem C4_numeric_constant_update_noop (s : ImplicitSpecies) (t0 t1 : ℚ) : (∀ i : Int, s.n = NSpec.value (PyValue.int i) → s.create_value_fenics t0 = .ok { s with value_fenics := Option.some (PyValue.femConstant (i : ℚ)) } ∧ ImplicitSpecies.update_density { s with value_fenics := Option.some (PyValue.femConstant (i : ℚ)) } t1 = .ok { s with value_fenics := Option.some (PyValue.femConstant (i : ℚ)) }) ∧ (∀ q : ℚ, s.n = NSpec.value (PyValue.float q) → s.create_value_fenics t0 = .ok { s with value_fenics := Option.some (PyValue.femConstant q) } ∧ ImplicitSpecies.update_density { s with value_fenics := Option.some (PyValue.femConstant q) } t1 = .ok { s with value_fenics := Option.some (PyValue.femConstant q) }) := by
  constructor
  · intro i hn
    constructor
    · simp only [ImplicitSpecies.create_value_fenics, hn]
      rfl
    · show ImplicitSpecies.update_density _ _ = _
      simp only [ImplicitSpecies.update_density, hn]
  · intro q hn
    constructor
    · simp only [ImplicitSpecies.create_value_fenics, hn]
      rfl
    · show ImplicitSpecies.update_density _ _ = _
      simp only [ImplicitSpecies.update_density, hn]

/-- C4 (witness): the int `7` bound at time `0`, refreshed at time `9`:
the value stays `7`. -/
theorem C4_numeric_constant_update_noop_witness : sIntSeven.create_value_fenics 0 = .ok { sIntSeven with value_fenics := Option.some (PyValue.femConstant ((7 : Int) : ℚ)) } ∧ ImplicitSpecies.update_density { sIntSeven with value_fenics := Option.some (PyValue.femConstant ((7 : Int) : ℚ)) } 9 = .ok { sIntSeven with value_fenics := Option.some (PyValue.femConstant ((7 : Int) : ℚ)) } :=
  (C4_numeric_constant_update_noop sIntSeven 0 9).1 7 rfl

/-- C5: for every callable `n` accepting `x` (with or without `t`),
`create_value_fenics` takes the symbolic branch: it calls `n` with keyword
arguments for exactly the accepted subset of `t` (the current time
constant) and `x` (the spatial coordinate of the mesh) and stores the
returned expression directly as `value_fenics`, never evaluating it
eagerly to a number. -/
theorem C5_spatial_callable_symbolic (s : ImplicitSpecies) (c : PyCallable) (t : ℚ) (hn : s.n = NSpec.callable c) (hx : "x" ∈ c.varnames) : s.create_value_fenics t = .ok { s with value_fenics := Option.some (c.fn (if "t" ∈ c.varnames then Option.some (PyValue.femConstant t) else Option.none) (Option.some (PyValue.expr UflExpr.spatialCoord))) } := by
  have hcond : ¬("t" ∈ c.varnames ∧ "x" ∉ c.varnames ∧ "T" ∉ c.varnames) := by
    rintro ⟨_, hx2, _⟩
    exact hx2 hx
  simp only [ImplicitSpecies.create_value_fenics, hn]
  rw [if_neg hcond, if_pos hx]

/-- C5 (witness): the callable of `x` only returning `x + 1`, bound at
time `0`. -/
theorem C5_spatial_callable_symbolic_witness : sSpatial.create_value_fenics 0 = .ok { sSpatial with value_fenics := Option.some (cSpatial.fn (if "t" ∈ cSpatial.varnames then Option.some (PyValue.femConstant 0) else Option.none) (Option.some (PyValue.expr UflExpr.spatialCoord))) } :=
  C5_spatial_callable_symbolic sSpatial cSpatial 0 rfl (by decide)

/-- A dependency species with no bound solution. -/
def ctUnsolved : Species := { name := Option.some "ct" }

/-- An ImplicitSpecies depending on the unsolved species. -/
def sSites : ImplicitSpecies := { name := Option.some "sites", n := NSpec.value (PyValue.float 1), others := Option.some [ctUnsolved] }

/-- A solved dependency species with solution field `0`. -/
def spA : Species := { name := Option.some "A", solution := Option.some (UflExpr.function 0) }

/-- A solved dependency species with solution field `1`. -/
def spB : Species := { name := Option.some "B", solution := Option.some (UflExpr.function 1) }

/-- An ImplicitSpecies with bound total value `5` depending on the two
solved species. -/
def sTotal : ImplicitSpecies := { name := Option.some "impl", n := NSpec.value (PyValue.float 5), others := Option.some [spA, spB], value_fenics := Option.some (PyValue.femConstant 5) }

/-- C6: on an ImplicitSpecies whose `others` is a non-empty list, reading
`concentration` fails with a ValueError-class error exactly when some
entry of `others` has a null solution, and the raised message names both
the implicit species and the offending dependency (the first entry
without a solution). -/
theorem C6_unresolved_dependency (s : ImplicitSpecies) (l : List Species) (h : s.others = Option.some l) (_hne : l ≠ []) : ((∃ msg, s.concentration = .error (.valueError msg)) ↔ ∃ o ∈ l, o.solution = Option.none) ∧ (∀ o, firstUnsolved l = Option.some o → s.concentration = .error (.valueError (concErrMsg s.name o.name)) ∧ ∃ p q r, concErrMsg s.name o.name = p ++ pyStr s.name ++ q ++ pyStr o.name ++ r) := by
  constructor
  · constructor
    · rintro ⟨msg, hmsg⟩
      cases hfu : firstUnsolved l with
      | some o => exact ⟨o, (firstUnsolved_eq_some hfu).1, (firstUnsolved_eq_some hfu).2⟩
      | none =>
        exfalso
        simp only [ImplicitSpecies.concentration, h, hfu] at hmsg
        cases hvf : s.value_fenics with
        | none => simp [hvf] at hmsg
        | some vf =>
          cases htu : toUfl vf with
          | none => simp [hvf, htu] at hmsg
          | some v => simp [hvf, htu] at hmsg
    · rintro ⟨o, hmem, hsol⟩
      cases hfu : firstUnsolved l with
      | none => exact absurd hsol (firstUnsolved_eq_none.mp hfu o hmem)
      | some o2 => exact ⟨concErrMsg s.name o2.name, by simp [ImplicitSpecies.concentration, h, hfu]⟩
  · intro o hfu
    constructor
    · simp [ImplicitSpecies.concentration, h, hfu]
    · exact ⟨"Cannot compute concentration of ", " because ", " has no solution", rfl⟩

/-- C6 (witness): the implicit species `sites` over the single unsolved
dependency `ct` raises the ValueError naming both. -/
theorem C6_unresolved_dependency_witness : sSites.concentration = .error (.valueError (concErrMsg sSites.name ctUnsolved.name)) :=
  ((C6_unresolved_dependency sSites [ctUnsolved] rfl (List.cons_ne_nil _ _)).2 ctUnsolved rfl).1

/-- C7: on an ImplicitSpecies with bound `value_fenics` and all
dependencies solved, `concentration` returns
`value_fenics - sum(solutions)`: symbolically it is the subtraction node,
and at every evaluation point it equals the value of `V` minus the sum of
the values of the solutions of every species in `others`. -/
theorem C7_concentration_difference (s : ImplicitSpecies) (l : List Species) (vf : PyValue) (V : UflExpr) (h : s.others = Option.some l) (hsol : ∀ o ∈ l, o.solution ≠ Option.none) (hvf : s.value_fenics = Option.some vf) (hV : toUfl vf = Option.some V) : s.concentration = .ok (UflExpr.sub V (pySum (solutionExprs l))) ∧ ∀ env : Nat → ℚ, ∀ xval : ℚ, (UflExpr.sub V (pySum (solutionExprs l))).eval env xval = V.eval env xval - ((solutionExprs l).map (fun e => e.eval env xval)).sum := by
  constructor
  · have hfu : firstUnsolved l = Option.none := firstUnsolved_eq_none.mpr hsol
    simp [ImplicitSpecies.concentration, h, hfu, hvf, hV]
  · intro env xval
    show _ - _ = _
    rw [pySum_eval]

/-- C7 (witness): with `others = [A, B]` holding solutions and bound total
value `5`, `concentration` is the expression `5 - sum [sA, sB]`. -/
theorem C7_concentration_difference_witness : sTotal.concentration = .ok (UflExpr.sub (UflExpr.constant 5) (pySum (solutionExprs [spA, spB]))) :=
  (C7_concentration_difference sTotal [spA, spB] (PyValue.femConstant 5) (UflExpr.constant 5) rfl (by decide) rfl rfl).1

/-- C8: the expansion step `Trap.create_species_and_reaction` sets
`trapped_concentration` to a new Species named like the Trap with
`mobile = False`, sets `empty_trap_sites` to an ImplicitSpecies with the
same `n` and `others` the one-element list holding that Species, and sets
`reaction` to a Reaction with `reactant = [mobile_species,
empty_trap_sites]`, `product = trapped_concentration`, the same four
kinetic parameters, and the same volume.  Python returns `None`; here the
absence of a return value is modelled by the operation producing only the
updated Trap. -/
theorem C8_trap_expansion (tr : Trap) : (tr.create_species_and_reaction).trapped_concentration = Option.some (trapSpecies tr) ∧ (trapSpecies tr).name = tr.name ∧ (trapSpecies tr).mobile = false ∧ (tr.create_species_and_reaction).empty_trap_sites = Option.some (trapSites tr) ∧ (trapSites tr).n = tr.n ∧ (trapSites tr).others = Option.some [trapSpecies tr] ∧ (tr.create_species_and_reaction).reaction = Option.some { reactant := [ReactionSpecies.species tr.mobile_species, ReactionSpecies.implicit (trapSites tr)], product := trapSpecies tr, k_0 := tr.k_0, E_k := tr.E_k, p_0 := tr.p_0, E_p := tr.E_p, volume := tr.volume } :=
  ⟨rfl, rfl, rfl, rfl, rfl, rfl, rfl⟩

theorem find_species_from_name_ok (name : String) (l : List Species) : ∀ spe, l.find? (fun s0 => decide (s0.name = Option.some name)) = Option.some spe → find_species_from_name name l = .ok spe := by
  induction l with
  | nil =>
    intro spe h
    simp [List.find?] at h
  | cons a rest ih =>
    intro spe h
    by_cases ha : a.name = Option.some name
    · simp [List.find?, ha] at h
      subst h
      simp [find_species_from_name, ha]
    · simp [List.find?, ha] at h
      simp only [find_species_from_name, if_neg ha]
      exact ih spe h

theorem find_species_from_name_err (name : String) (l : List Species) : l.find? (fun s0 => decide (s0.name = Option.some name)) = Option.none → find_species_from_name name l = .error (.valueError ("Species " ++ name ++ " not found in list of species")) := by
  induction l with
  | nil =>
    intro _
    rfl
  | cons a rest ih =>
    intro h
    by_cases ha : a.name = Option.some name
    · simp [List.find?, ha] at h
    · simp [List.find?, ha] at h
      simp only [find_species_from_name, if_neg ha]
      refine ih ?_
      rw [List.find?_eq_none]
      intro x hx
      simpa using h x hx

theorem find_surface_from_id_ok (id : Int) (sl : List SurfaceSubdomain) : ∀ surf, sl.find? (fun s0 => decide (s0.id = id)) = Option.some surf → find_surface_from_id id sl = .ok surf := by
  induction sl with
  | nil =>
    intro surf h
    simp [List.find?] at h
  | cons a rest ih =>
    intro surf h
    by_cases ha : a.id = id
    · simp [List.find?, ha] at h
      subst h
      simp [find_surface_from_id, ha]
    · simp [List.find?, ha] at h
      simp only [find_surface_from_id, if_neg ha]
      exact ih surf h

theorem find_surface_from_id_err (id : Int) (sl : List SurfaceSubdomain) : sl.find? (fun s0 => decide (s0.id = id)) = Option.none → find_surface_from_id id sl = .error (.valueError ("id " ++ toString id ++ " not found in list of surfaces")) := by
  induction sl with
  | nil =>
    intro _
    rfl
  | cons a rest ih =>
    intro h
    by_cases ha : a.id = id
    · simp [List.find?, ha] at h
    · simp [List.find?, ha] at h
      simp only [find_surface_from_id, if_neg ha]
      refine ih ?_
      rw [List.find?_eq_none]
      intro x hx
      simpa using h x hx

/-- C9: each lookup helper performs an ordered linear scan returning the
first element whose name (respectively integer id) exactly matches — so
with duplicate keys the first-inserted entry wins, as `List.find?` states
— and when no element matches it fails with a ValueError whose message is
a concatenation containing the query key. -/
theorem C9_lookup_first_match (name : String) (l : List Species) (id : Int) (sl : List SurfaceSubdomain) : (∀ spe, l.find? (fun s0 => decide (s0.name = Option.some name)) = Option.some spe → find_species_from_name name l = .ok spe) ∧ (l.find? (fun s0 => decide (s0.name = Option.some name)) = Option.none → find_species_from_name name l = .error (.valueError ("Species " ++ name ++ " not found in list of species"))) ∧ (∀ surf, sl.find? (fun s0 => decide (s0.id = id)) = Option.some surf → find_surface_from_id id sl = .ok surf) ∧ (sl.find? (fun s0 => decide (s0.id = id)) = Option.none → find_surface_from_id id sl = .error (.valueError ("id " ++ toString id ++ " not found in list of surfaces"))) :=
  ⟨find_species_from_name_ok name l, find_species_from_name_err name l, find_surface_from_id_ok id sl, find_surface_from_id_err id sl⟩

/-- A species named `H`. -/
def spH : Species := { name := Option.some "H" }

/-- A second species also named `H` (an immobile duplicate). -/
def spHdup : Species := { name := Option.some "H", mobile := false }

/-- A species named `D`. -/
def spD : Species := { name := Option.some "D" }

/-- C9 (witness): lookup by name returns the first `H` even with a
duplicate later; lookup of a missing name errors with the message naming
the query; lookup by id returns the matching surface. -/
theorem C9_lookup_first_match_witness : find_species_from_name "H" [spH, spHdup, spD] = .ok spH ∧ find_species_from_name "T" [spH, spD] = .error (.valueError ("Species " ++ "T" ++ " not found in list of species")) ∧ find_surface_from_id 2 [⟨1⟩, ⟨2⟩] = .ok ⟨2⟩ :=
  ⟨(C9_lookup_first_match "H" [spH, spHdup, spD] 0 []).1 spH rfl,
   (C9_lookup_first_match "T" [spH, spD] 0 []).2.1 rfl,
   (C9_lookup_first_match "H" [] 2 [⟨1⟩, ⟨2⟩]).2.2.1 ⟨2⟩ rfl⟩

/-- C10: on an ImplicitSpecies constructed with `others` left at its
default `None`, reading `concentration` raises the unhandled `TypeError`
coming from `len(None)`, not the documented ValueError; the ValueError
branch is reachable only when `others` is an actual list. -/
theorem C10_default_others_typeerror (s : ImplicitSpecies) : (s.others = Option.none → s.concentration = .error (.typeError "object of type NoneType has no len()")) ∧ (∀ msg, s.concentration = .error (.valueError msg) → (s.others).isSome = true) := by
  constructor
  · intro h
    simp [ImplicitSpecies.concentration, h]
  · intro msg hmsg
    cases ho : s.others with
    | none =>
      simp [ImplicitSpecies.concentration, ho] at hmsg
    | some l =>
      simp [ho]

/-- An ImplicitSpecies built without the `others` argument. -/
def sNoOthers : ImplicitSpecies := { n := NSpec.value (PyValue.float 1) }

/-- C10 (witness): the default-`others` species raises the TypeError; the
species that does raise the documented ValueError has `others` set. -/
theorem C10_default_others_typeerror_witness : sNoOthers.concentration = .error (.typeError "object of type NoneType has no len()") ∧ (sSites.others).isSome = true :=
  ⟨(C10_default_others_typeerror sNoOthers).1 rfl,
   (C10_default_others_typeerror sSites).2 (concErrMsg sSites.name ctUnsolved.name) rfl⟩

end Festim
